import Mathlib

/-!
Verification development for the NOAA precipitation toolkit
(`noaa_api.py`, `rainfall.py`).

The Python functions are shallowly embedded:
  - pandas DataFrames become a column-name list plus a list of typed rows;
  - floats used for precipitation amounts become `ℚ` (the inputs at stake
    are decimal literals, on which rational arithmetic agrees with the
    reference values exactly);
  - coordinates and great-circle distances become `ℝ` (the haversine
    formula is transcendental);
  - `datetime.date` becomes an explicit proleptic-Gregorian `Date`;
  - raised Python exceptions become `Except PyError`;
  - network responses are passed in as explicit arguments, and
    `date.today()` is an explicit `today` argument.
-/

/-! ### Calendar model (mirrors Python `datetime.date`) -/

/-- Gregorian leap-year rule, as used by `datetime.date`. -/
def isLeap (y : Int) : Bool :=
  (y % 4 == 0 && y % 100 != 0) || y % 400 == 0

/-- Number of days in month `m` (1..12) of a (non-)leap year. -/
def daysInMonth (leap : Bool) (m : Nat) : Nat :=
  if m = 2 then (if leap then 29 else 28)
  else if m = 4 || m = 6 || m = 9 || m = 11 then 30
  else 31

/-- Number of days strictly before month `m` within a year. -/
def monthOffset (leap : Bool) : Nat → Nat
  | 0 => 0
  | 1 => 0
  | m + 2 => monthOffset leap (m + 1) + daysInMonth leap (m + 1)

/-- A calendar date (proleptic Gregorian), mirroring `datetime.date`. -/
structure Date where
  year : Int
  month : Nat
  day : Nat
deriving DecidableEq, Repr

/-- `timetuple().tm_yday`: 1-based ordinal of the day within its year. -/
def Date.dayOfYear (d : Date) : Nat :=
  monthOffset (isLeap d.year) d.month + d.day

/-- The date designates an existing calendar day. -/
def Date.valid (d : Date) : Bool :=
  1 ≤ d.month && d.month ≤ 12 && 1 ≤ d.day &&
    d.day ≤ daysInMonth (isLeap d.year) d.month

/-- Python `date` comparison `a <= b` (lexicographic on year, month, day). -/
def Date.ble (a b : Date) : Bool :=
  if a.year = b.year then
    (if a.month = b.month then a.day ≤ b.day else decide (a.month < b.month))
  else decide (a.year < b.year)

/-- Python `date` comparison `a < b`. -/
def Date.blt (a b : Date) : Bool :=
  if a.year = b.year then
    (if a.month = b.month then decide (a.day < b.day) else decide (a.month < b.month))
  else decide (a.year < b.year)

/-- Leap years among years `1, …, y-1` (as in `date.toordinal`). -/
def leapsBefore (y : Int) : Int :=
  (y - 1) / 4 - (y - 1) / 100 + (y - 1) / 400

/-- Python `date.toordinal()`: days since 0001-01-00, so that differences
of ordinals are exact day counts (`(d2 - d1).days`). -/
def Date.toRataDie (d : Date) : Int :=
  365 * (d.year - 1) + leapsBefore d.year + (d.dayOfYear : Int)

/-- The next calendar day. -/
def Date.succ (d : Date) : Date :=
  if d.day < daysInMonth (isLeap d.year) d.month then ⟨d.year, d.month, d.day + 1⟩
  else if d.month < 12 then ⟨d.year, d.month + 1, 1⟩
  else ⟨d.year + 1, 1, 1⟩

/-- `pd.date_range(start, end, freq="D")`: every day of `[start, end]`. -/
def dateRange (s e : Date) : List Date :=
  (List.range (e.toRataDie - s.toRataDie + 1).toNat).map (fun i => Date.succ^[i] s)

/-! ### Python-level error values -/

/-- A raised Python exception, by class and message. -/
inductive PyError where
  | valueError (msg : String)
deriving DecidableEq, Repr

/-! ### rainfall.py -/

/-- A row of the input DataFrame of `prepare_cumulative` /
`prepare_cumulative_rain_days`.  The `doy` field carries the `'doy'`
column; the `date` field carries the `'date'` column (used only when the
`'doy'` column is absent). -/
structure PrepRow where
  year : Int
  doy : Int
  prcp : ℚ
  date : Date
deriving DecidableEq, Repr

/-- The input DataFrame: which of the four relevant columns are present,
plus the typed rows. -/
structure PrepDF where
  hasYear : Bool
  hasPrcp : Bool
  hasDoy : Bool
  hasDate : Bool
  rows : List PrepRow
deriving DecidableEq, Repr

/-- An output DataFrame: its (ordered) column names and its rows. -/
structure Frame (ρ : Type) where
  cols : List String
  rows : List ρ
deriving DecidableEq, Repr

/-- A row of the output of `prepare_cumulative`. -/
structure CumRow where
  year : Int
  doy : Int
  prcp : ℚ
  cum : ℚ
deriving DecidableEq, Repr

/-- Insert into an ascending list of years (helper for `sortInts`). -/
def insertSorted (x : Int) : List Int → List Int
  | [] => [x]
  | y :: ys => if x ≤ y then x :: y :: ys else y :: insertSorted x ys

/-- Ascending sort of the (deduplicated) group keys, as
`groupby(..., sort=True)` enumerates them. -/
def sortInts : List Int → List Int
  | [] => []
  | x :: xs => insertSorted x (sortInts xs)

/-- `_end_doy(end_date)`: day-of-year of `end_date`, defaulting to today. -/
def end_doy (today : Date) (endDate : Option Date) : Nat :=
  (endDate.getD today).dayOfYear

/-- The per-year dense reindex `set_index("doy").reindex(range(1, end_doy+1),
fill_value=0.0)`: every day of `1..endDoy` paired with its precipitation,
missing days filled with `0.0`. -/
def reindexDays (endDoy : Nat) (gg : List (Int × ℚ)) : List (Int × ℚ) :=
  (List.range endDoy).map (fun i =>
    let d : Int := (i : Int) + 1
    match gg.find? (fun p => p.1 == d) with
    | some p => (d, p.2)
    | none => (d, (0 : ℚ)))

/-- `gg["cum"] = gg["prcp"].cumsum()`, tagged with the year. -/
def cumRows (yr : Int) (acc : ℚ) : List (Int × ℚ) → List CumRow
  | [] => []
  | (d, p) :: rest => ⟨yr, d, p, acc + p⟩ :: cumRows yr (acc + p) rest

/-- The per-year group `g[["doy", "prcp"]]` restricted to
`doy.between(1, end_doy)`. -/
def yearGroup (endDoy : Nat) (rows : List PrepRow) (yr : Int) : List (Int × ℚ) :=
  ((rows.filter (fun r => r.year == yr)).map (fun r => (r.doy, r.prcp))).filter
    (fun p => 1 ≤ p.1 && p.1 ≤ (endDoy : Int))

/-- One year's block of `prepare_cumulative`: dense reindex then cumulative
sum.  pandas `reindex` refuses a duplicated index. -/
def buildCumYear (endDoy : Nat) (rows : List PrepRow) (yr : Int) :
    Except PyError (List CumRow) :=
  let gg := yearGroup endDoy rows yr
  if (gg.map Prod.fst).Nodup then .ok (cumRows yr 0 (reindexDays endDoy gg))
  else .error (.valueError "cannot reindex on an axis with duplicate labels")

/-- The `for yr, g in df.groupby(...)` loop followed by `pd.concat`:
build each year's block in ascending year order, propagating the first
raised error, and concatenate the blocks. -/
def concatGroups {ρ : Type} (build : Int → Except PyError (List ρ)) :
    List Int → Except PyError (List ρ)
  | [] => .ok []
  | y :: ys =>
    match build y with
    | .error e => .error e
    | .ok block =>
      match concatGroups build ys with
      | .error e => .error e
      | .ok rest => .ok (block ++ rest)

/-- `prepare_cumulative(df, end_date)` (rainfall.py:21-66). -/
def prepare_cumulative (today : Date) (df : PrepDF) (endDate : Option Date) :
    Except PyError (Frame CumRow) :=
  if !df.hasYear || !df.hasPrcp then
    .error (.valueError "prepare_cumulative requires 'year' and 'prcp' columns")
  else if !df.hasDoy && !df.hasDate then
    .error (.valueError "prepare_cumulative requires 'doy' or 'date' column")
  else
    let rows := if df.hasDoy then df.rows
      else df.rows.map (fun r => { r with doy := (r.date.dayOfYear : Int) })
    let endDoy := end_doy today endDate
    if rows.isEmpty then .ok ⟨["year", "doy", "prcp", "cum"], []⟩
    else
      match concatGroups (buildCumYear endDoy rows)
        (sortInts (rows.map (·.year)).dedup) with
      | .error e => .error e
      | .ok groups => .ok ⟨["year", "doy", "prcp", "cum"], groups⟩

/-- A row of the input DataFrame of `count_rain_days`. -/
structure CountRow where
  date : Date
  prcp : ℚ
deriving DecidableEq, Repr

/-- The input DataFrame of `count_rain_days`. -/
structure CountDF where
  hasDate : Bool
  hasPrcp : Bool
  rows : List CountRow
deriving DecidableEq, Repr

/-- The dictionary returned by `count_rain_days`. -/
structure RainCounts where
  total_days : Nat
  no_rain_days : Nat
  rain_days : Nat
deriving DecidableEq, Repr

/-- `min` of a list of dates (`daily.index.min()`); the `[]` case is never
reached because the caller has already ruled out an empty frame. -/
def minDate : List Date → Date
  | [] => ⟨1, 1, 1⟩
  | d :: ds => ds.foldl (fun a b => if Date.ble a b then a else b) d

/-- `max` of a list of dates (`daily.index.max()`); `[]` never reached. -/
def maxDate : List Date → Date
  | [] => ⟨1, 1, 1⟩
  | d :: ds => ds.foldl (fun a b => if Date.ble b a then a else b) d

/-- `count_rain_days(df, start_date, end_date, threshold)`
(rainfall.py:69-130).  Grouping by day and summing, then reindexing with
`fill_value=0.0`, gives each day of the window the sum of its rows'
precipitation (an absent day's empty sum is `0`). -/
def count_rain_days (df : CountDF) (startDate endDate : Option Date)
    (threshold : ℚ) : Except PyError RainCounts :=
  if df.rows.isEmpty then .ok ⟨0, 0, 0⟩
  else if !(df.hasDate && df.hasPrcp) then
    .error (.valueError "count_rain_days requires DataFrame with columns: ['date', 'prcp'].")
  else
    let dates := (df.rows.map (·.date)).dedup
    let start := startDate.getD (minDate dates)
    let stop := endDate.getD (maxDate dates)
    if Date.blt stop start then
      .error (.valueError "end_date must be on/after start_date.")
    else
      let daily := (dateRange start stop).map (fun d =>
        ((df.rows.filter (fun r => r.date == d)).map (·.prcp)).sum)
      .ok ⟨daily.length,
           (daily.filter (fun v => decide (v ≤ threshold))).length,
           (daily.filter (fun v => decide (threshold < v))).length⟩

/-- A row of the output of `prepare_cumulative_rain_days`. -/
structure RainDayRow where
  year : Int
  doy : Int
  rain_day : Int
  cum_rain_days : Int
deriving DecidableEq, Repr

/-- `rain_day = (prcp > threshold).astype(int)` and its `cumsum`, tagged
with the year. -/
def rainDayRows (yr : Int) (threshold : ℚ) (acc : Int) :
    List (Int × ℚ) → List RainDayRow
  | [] => []
  | (d, p) :: rest =>
    let ind : Int := if threshold < p then 1 else 0
    ⟨yr, d, ind, acc + ind⟩ :: rainDayRows yr threshold (acc + ind) rest

/-- One year's block of `prepare_cumulative_rain_days`: dense reindex,
rain-day indicator, cumulative count. -/
def buildRainYear (endDoy : Nat) (threshold : ℚ) (rows : List PrepRow)
    (yr : Int) : Except PyError (List RainDayRow) :=
  let gg := yearGroup endDoy rows yr
  if (gg.map Prod.fst).Nodup then
    .ok (rainDayRows yr threshold 0 (reindexDays endDoy gg))
  else .error (.valueError "cannot reindex on an axis with duplicate labels")

/-- `prepare_cumulative_rain_days(df, end_date, threshold)`
(rainfall.py:133-198). -/
def prepare_cumulative_rain_days (today : Date) (df : PrepDF)
    (endDate : Option Date) (threshold : ℚ) :
    Except PyError (Frame RainDayRow) :=
  if !df.hasYear || !df.hasPrcp then
    .error (.valueError "prepare_cumulative_rain_days requires 'year' and 'prcp' columns")
  else if !df.hasDoy && !df.hasDate then
    .error (.valueError "prepare_cumulative_rain_days requires 'doy' or 'date' column")
  else
    let rows := if df.hasDoy then df.rows
      else df.rows.map (fun r => { r with doy := (r.date.dayOfYear : Int) })
    let endDoy := end_doy today endDate
    if rows.isEmpty then .ok ⟨["year", "doy", "rain_day", "cum_rain_days"], []⟩
    else
      match concatGroups (buildRainYear endDoy threshold rows)
        (sortInts (rows.map (·.year)).dedup) with
      | .error e => .error e
      | .ok groups => .ok ⟨["year", "doy", "rain_day", "cum_rain_days"], groups⟩

/-! ### noaa_api.py -/

/-- `math.radians`: degrees to radians. -/
noncomputable def radiansOf (x : ℝ) : ℝ := x * Real.pi / 180

/-- `_haversine(lat1, lon1, lat2, lon2)` (noaa_api.py:43-69): great-circle
distance in kilometres on a sphere of radius 6371 km. -/
noncomputable def haversine (lat1 lon1 lat2 lon2 : ℝ) : ℝ :=
  let p1 := radiansOf lat1
  let l1 := radiansOf lon1
  let p2 := radiansOf lat2
  let l2 := radiansOf lon2
  let a := Real.sin ((p2 - p1) / 2) ^ 2 +
    Real.cos p1 * Real.cos p2 * Real.sin ((l2 - l1) / 2) ^ 2
  2 * Real.arcsin (Real.sqrt a) * 6371

/-- A station record of the `/stations` response. -/
structure StationMeta where
  id : String
  latitude : ℝ
  longitude : ℝ

/-- A station record after `s["_dist_km"] = _haversine(...)`. -/
structure Station where
  id : String
  latitude : ℝ
  longitude : ℝ
  distKm : ℝ

/-- The annotation loop of `find_nearby_stations`. -/
noncomputable def annotateStations (lat lon : ℝ) (stations : List StationMeta) :
    List Station :=
  stations.map (fun s =>
    ⟨s.id, s.latitude, s.longitude, haversine lat lon s.latitude s.longitude⟩)

/-- The comparison used by `sorted(stations, key=lambda x: x["_dist_km"])`. -/
noncomputable def distLe (a b : Station) : Bool := decide (a.distKm ≤ b.distKm)

/-- `find_nearby_stations(token, lat, lon, max_nearby, return_details=True)`
(noaa_api.py:72-102): the `stations` list of the upstream response is an
explicit argument; Python `sorted` is a stable merge sort. -/
noncomputable def find_nearby_stations (lat lon : ℝ) (maxNearby : ℕ)
    (stations : List StationMeta) : List Station :=
  ((annotateStations lat lon stations).mergeSort distLe).take maxNearby

/-- `find_nearby_station(...)` (noaa_api.py:156-181): iterate the detail
rows in order; a candidate whose coverage check raises is skipped
(`except Exception: continue`), a candidate whose check returns `True` is
returned at once, and `None` is returned when the rows are exhausted.
`details` stands for the DataFrame built by `find_nearby_stations` and
`check` for `has_full_prcp_coverage` together with its network effects. -/
def find_nearby_station (details : List Station)
    (check : String → Except PyError Bool) : Option String :=
  match details with
  | [] => none
  | s :: rest =>
    match check s.id with
    | .ok true => some s.id
    | _ => find_nearby_station rest check

/-- A row of the `/data` response, with `row["date"][:10]` already parsed
(`datetime.strptime(d, "%Y-%m-%d").date()`). -/
structure DataRow where
  date : Date
deriving DecidableEq, Repr

/-- The `end_dt` selection of `has_full_prcp_coverage`: the given end date
when it falls within `year`, else Dec 31 for past years or today for the
current (or a future) year. -/
def effectiveEnd (today : Date) (year : Int) (endDate : Option Date) : Date :=
  match endDate with
  | none => if year < today.year then ⟨year, 12, 31⟩ else today
  | some e =>
    if e.year ≠ year then
      (if year < today.year then ⟨year, 12, 31⟩ else today)
    else e

/-- The `seen` set of `has_full_prcp_coverage`: distinct day-of-year values
of rows whose date lies in `year` and does not exceed `end_dt`. -/
def seenDoys (year : Int) (endDt : Date) (results : List DataRow) : Finset ℕ :=
  ((results.filter (fun r => r.date.year == year && Date.ble r.date endDt)).map
    (fun r => r.date.dayOfYear)).toFinset

/-- `has_full_prcp_coverage(token, station_id, year, end_date)`
(noaa_api.py:105-153), with the `results` list of the upstream response and
`date.today()` as explicit arguments. -/
def has_full_prcp_coverage (today : Date) (year : Int) (endDate : Option Date)
    (results : List DataRow) : Bool :=
  let endDt := effectiveEnd today year endDate
  let expectedDays : Int :=
    endDt.toRataDie - (Date.mk year 1 1).toRataDie + 1
  if results.isEmpty then false
  else decide (expectedDays ≤ ((seenDoys year endDt results).card : Int))

/-! ### Concrete inputs used by the claims -/

/-- Year-2024 records with precipitation 1.0 at day-of-year 1 and 2.0 at
day-of-year 3 (claim C1). -/
def c1df : PrepDF :=
  { hasYear := true, hasPrcp := true, hasDoy := true, hasDate := false,
    rows := [⟨2024, 1, 1, ⟨2024, 1, 1⟩⟩, ⟨2024, 3, 2, ⟨2024, 1, 3⟩⟩] }

/-- Single-year records whose dense 3-day window has precipitation
`[0.2, 0.0 (filled), 0.0]` (claim C3). -/
def c3df : PrepDF :=
  { hasYear := true, hasPrcp := true, hasDoy := true, hasDate := false,
    rows := [⟨2024, 1, 0.2, ⟨2024, 1, 1⟩⟩, ⟨2024, 3, 0, ⟨2024, 1, 3⟩⟩] }

/-- Records `{Jan 1: 0.0, Jan 3: 0.2}` of 2024 (claim C4). -/
def c4df : CountDF :=
  { hasDate := true, hasPrcp := true,
    rows := [⟨⟨2024, 1, 1⟩, 0⟩, ⟨⟨2024, 1, 3⟩, 0.2⟩] }

/-- An input lacking the `'year'`, `'doy'` and `'date'` columns (claim C7). -/
def c7df : PrepDF :=
  { hasYear := false, hasPrcp := true, hasDoy := false, hasDate := false,
    rows := [] }

/-- Whether `field` occurs as a substring of `msg` (does the error message
list this field?). -/
def strMentions (msg field : String) : Bool :=
  go msg.toList
where
  go : List Char → Bool
    | [] => field.toList.isPrefixOf []
    | c :: rest => field.toList.isPrefixOf (c :: rest) || go rest

/-! ### Claims -/

/-- Claim C1: on year-2024 records with precipitation 1.0 at day-of-year 1
and 2.0 at day-of-year 3 and an end date of day-of-year 3,
`prepare_cumulative` returns exactly 3 rows, all of year 2024, with
days-of-year 1,2,3 in increasing order, precipitation `[1.0, 0.0, 2.0]`
(day 2 filled with 0.0) and running sums `[1.0, 1.0, 3.0]`. -/
theorem claim_C1_prepare_cumulative_dense :
    prepare_cumulative ⟨2025, 6, 15⟩ c1df (some ⟨2024, 1, 3⟩) =
      .ok ⟨["year", "doy", "prcp", "cum"],
        [⟨2024, 1, 1, 1⟩, ⟨2024, 2, 0, 1⟩, ⟨2024, 3, 2, 3⟩]⟩ := by
  norm_num [c1df, prepare_cumulative, end_doy, Date.dayOfYear, monthOffset,
    isLeap, daysInMonth, sortInts, insertSorted, concatGroups, buildCumYear,
    yearGroup, reindexDays, cumRows, List.range_succ,
    List.dedup_cons_of_mem, List.dedup_cons_of_not_mem]

/-- Claim C3: on a single-year input whose dense 3-day window has
precipitation `[0.2, 0.0 (filled), 0.0]` and threshold 0.0,
`prepare_cumulative_rain_days` yields rain-day flags `[1, 0, 0]` and
cumulative counts `[1, 1, 1]`: a day whose precipitation equals the
threshold is not a rain day (strict `>`). -/
theorem claim_C3_prepare_cumulative_rain_days_strict :
    prepare_cumulative_rain_days ⟨2025, 6, 15⟩ c3df (some ⟨2024, 1, 3⟩) 0 =
      .ok ⟨["year", "doy", "rain_day", "cum_rain_days"],
        [⟨2024, 1, 1, 1⟩, ⟨2024, 2, 0, 1⟩, ⟨2024, 3, 0, 1⟩]⟩ := by
  norm_num [c3df, prepare_cumulative_rain_days, end_doy, Date.dayOfYear,
    monthOffset, isLeap, daysInMonth, sortInts, insertSorted, concatGroups,
    buildRainYear, yearGroup, reindexDays, rainDayRows, List.range_succ,
    List.dedup_cons_of_mem, List.dedup_cons_of_not_mem]

/-- Claim C4: on records `{Jan 1: 0.0, Jan 3: 0.2}` over the window
Jan 1 – Jan 3 with threshold 0.0, `count_rain_days` returns
`total_days = 3`, `no_rain_days = 2`, `rain_days = 1`: the absent Jan 2 is
filled with 0.0, days `≤ threshold` count as no-rain and days
`> threshold` as rain, over the whole window. -/
theorem claim_C4_count_rain_days_window :
    count_rain_days c4df (some ⟨2024, 1, 1⟩) (some ⟨2024, 1, 3⟩) 0 =
      .ok ⟨3, 2, 1⟩ := by
  norm_num [c4df, count_rain_days, dateRange, Date.toRataDie, Date.dayOfYear,
    Date.blt, Date.succ, leapsBefore, monthOffset, isLeap, daysInMonth,
    List.range_succ, Function.iterate_succ_apply, List.dedup_cons_of_mem,
    List.dedup_cons_of_not_mem]

/-- Claim C10: on any input with zero rows, `count_rain_days` returns all
three counts as 0 without error, whatever the column set, `start_date`,
`end_date` (even `end_date < start_date`) and threshold: the empty-input
check precedes the column and range checks. -/
theorem claim_C10_count_rain_days_empty :
    ∀ (df : CountDF) (startDate endDate : Option Date) (threshold : ℚ),
      df.rows = [] →
      count_rain_days df startDate endDate threshold = .ok ⟨0, 0, 0⟩ := by
  intro df s e thr h
  cases df
  simp only at h
  subst h
  simp [count_rain_days]

/-- Witness for C10: an empty frame lacking both required columns, with
`end_date` before `start_date`. -/
theorem claim_C10_witness :
    (CountDF.mk false false []).rows = [] ∧
      count_rain_days (CountDF.mk false false [])
        (some ⟨2024, 1, 3⟩) (some ⟨2024, 1, 1⟩) 0 = .ok ⟨0, 0, 0⟩ :=
  ⟨rfl, claim_C10_count_rain_days_empty _ _ _ _ rfl⟩

/-- Claim C8: on an empty record set (carrying the required input columns),
`prepare_cumulative` raises nothing and returns zero rows with the full
column set `['year', 'doy', 'prcp', 'cum']`. -/
theorem claim_C8_prepare_cumulative_empty :
    ∀ (today : Date) (df : PrepDF) (endDate : Option Date),
      df.hasYear = true → df.hasPrcp = true →
      (df.hasDoy = true ∨ df.hasDate = true) →
      df.rows = [] →
      prepare_cumulative today df endDate =
        .ok ⟨["year", "doy", "prcp", "cum"], []⟩ := by
  intro t df e h1 h2 h3 h4
  cases df
  simp only at h1 h2 h4
  subst h1; subst h2; subst h4
  rcases h3 with h | h <;> simp only at h <;> subst h <;>
    simp [prepare_cumulative]

/-- Witness for C8: an empty frame with `year`, `prcp` and `doy` columns. -/
theorem claim_C8_witness :
    (PrepDF.mk true true true false []).hasYear = true ∧
      (PrepDF.mk true true true false []).rows = [] ∧
      prepare_cumulative ⟨2025, 6, 15⟩ (PrepDF.mk true true true false []) none =
        .ok ⟨["year", "doy", "prcp", "cum"], []⟩ :=
  ⟨rfl, rfl,
    claim_C8_prepare_cumulative_empty _ _ _ rfl rfl (Or.inl rfl) rfl⟩

/-- Counterexample to claim C7 as stated: this input lacks `'year'`,
`'doy'` and `'date'`; `prepare_cumulative` raises the first check's
static message, which does not list the missing `'doy'` or `'date'`
fields. -/
theorem claim_C7_counterexample :
    c7df.hasYear = false ∧ c7df.hasDoy = false ∧ c7df.hasDate = false ∧
      prepare_cumulative ⟨2025, 6, 15⟩ c7df none =
        .error (.valueError "prepare_cumulative requires 'year' and 'prcp' columns") ∧
      strMentions "prepare_cumulative requires 'year' and 'prcp' columns"
        "doy" = false ∧
      strMentions "prepare_cumulative requires 'year' and 'prcp' columns"
        "date" = false := by
  refine ⟨rfl, rfl, rfl, by simp [prepare_cumulative, c7df], by decide, by decide⟩

/-- Claim C7 (amended): with `'year'` or `'prcp'` absent,
`prepare_cumulative` raises a `ValueError` naming `'year'` and `'prcp'`;
with those present but both `'doy'` and `'date'` absent, it raises a
`ValueError` naming `'doy'` and `'date'`.  The message lists the fields of
the first violated requirement, not the exact missing subset. -/
theorem claim_C7_validation_amended :
    ∀ (today : Date) (df : PrepDF) (endDate : Option Date),
      (df.hasYear = false ∨ df.hasPrcp = false →
        prepare_cumulative today df endDate =
          .error (.valueError "prepare_cumulative requires 'year' and 'prcp' columns") ∧
        strMentions "prepare_cumulative requires 'year' and 'prcp' columns"
          "year" = true ∧
        strMentions "prepare_cumulative requires 'year' and 'prcp' columns"
          "prcp" = true) ∧
      (df.hasYear = true → df.hasPrcp = true →
        df.hasDoy = false → df.hasDate = false →
        prepare_cumulative today df endDate =
          .error (.valueError "prepare_cumulative requires 'doy' or 'date' column") ∧
        strMentions "prepare_cumulative requires 'doy' or 'date' column"
          "doy" = true ∧
        strMentions "prepare_cumulative requires 'doy' or 'date' column"
          "date" = true) := by
  intro t df e
  constructor
  · rintro (h | h) <;>
      exact ⟨by simp [prepare_cumulative, h], by decide, by decide⟩
  · intro h1 h2 h3 h4
    exact ⟨by simp [prepare_cumulative, h1, h2, h3, h4], by decide, by decide⟩

/-- Witness for the amended C7: an input lacking only `'prcp'`. -/
theorem claim_C7_witness :
    prepare_cumulative ⟨2025, 6, 15⟩ (PrepDF.mk true false true true []) none =
        .error (.valueError "prepare_cumulative requires 'year' and 'prcp' columns") ∧
      strMentions "prepare_cumulative requires 'year' and 'prcp' columns"
        "prcp" = true :=
  ⟨((claim_C7_validation_amended ⟨2025, 6, 15⟩ (PrepDF.mk true false true true [])
      none).1 (Or.inr rfl)).1,
   ((claim_C7_validation_amended ⟨2025, 6, 15⟩ (PrepDF.mk true false true true [])
      none).1 (Or.inr rfl)).2.2⟩

/-- Claim C5: `find_nearby_station` scans the candidate list in order
(`find_nearby_stations` produces it in ascending distance order, claim C6)
and returns the id of the first candidate whose coverage check returns
`True`; candidates whose check raises or returns `False` are skipped and
the search continues; when no candidate qualifies the result is `None`,
not an error. -/
theorem claim_C5_find_nearby_station_first_qualifying :
    ∀ (details : List Station) (check : String → Except PyError Bool),
      (find_nearby_station details check = none ↔
        ∀ s ∈ details, check s.id ≠ Except.ok true) ∧
      (∀ sid, find_nearby_station details check = some sid →
        ∃ pre s post, details = pre ++ s :: post ∧ s.id = sid ∧
          check s.id = Except.ok true ∧
          ∀ t ∈ pre, check t.id ≠ Except.ok true) := by
  intro details check
  induction details with
  | nil => simp [find_nearby_station]
  | cons s rest ih =>
    rcases hc : check s.id with e | b
    · constructor
      · rw [show find_nearby_station (s :: rest) check =
            find_nearby_station rest check by simp [find_nearby_station, hc]]
        rw [ih.1]
        constructor
        · intro h t ht
          rcases List.mem_cons.mp ht with rfl | ht'
          · simp [hc]
          · exact h t ht'
        · intro h t ht; exact h t (List.mem_cons_of_mem _ ht)
      · intro sid hsid
        rw [show find_nearby_station (s :: rest) check =
            find_nearby_station rest check by simp [find_nearby_station, hc]]
          at hsid
        obtain ⟨pre, w, post, h1, h2, h3, h4⟩ := ih.2 sid hsid
        refine ⟨s :: pre, w, post, by simp [h1], h2, h3, ?_⟩
        intro t ht
        rcases List.mem_cons.mp ht with rfl | ht'
        · simp [hc]
        · exact h4 t ht'
    · cases b with
      | true =>
        constructor
        · rw [show find_nearby_station (s :: rest) check = some s.id by
            simp [find_nearby_station, hc]]
          constructor
          · intro h; cases h
          · intro h; exact absurd hc (h s (List.mem_cons_self s rest))
        · intro sid hsid
          rw [show find_nearby_station (s :: rest) check = some s.id by
            simp [find_nearby_station, hc]] at hsid
          exact ⟨[], s, rest, rfl, Option.some_inj.mp hsid, hc,
            by intro t ht; simp at ht⟩
      | false =>
        constructor
        · rw [show find_nearby_station (s :: rest) check =
              find_nearby_station rest check by simp [find_nearby_station, hc]]
          rw [ih.1]
          constructor
          · intro h t ht
            rcases List.mem_cons.mp ht with rfl | ht'
            · simp [hc]
            · exact h t ht'
          · intro h t ht; exact h t (List.mem_cons_of_mem _ ht)
        · intro sid hsid
          rw [show find_nearby_station (s :: rest) check =
              find_nearby_station rest check by simp [find_nearby_station, hc]]
            at hsid
          obtain ⟨pre, w, post, h1, h2, h3, h4⟩ := ih.2 sid hsid
          refine ⟨s :: pre, w, post, by simp [h1], h2, h3, ?_⟩
          intro t ht
          rcases List.mem_cons.mp ht with rfl | ht'
          · simp [hc]
          · exact h4 t ht'

/-- The square of the sine of a halved difference is symmetric. -/
theorem sin_half_sub_sq_symm (x y : ℝ) :
    Real.sin ((x - y) / 2) ^ 2 = Real.sin ((y - x) / 2) ^ 2 := by
  rw [show (x - y) / 2 = -((y - x) / 2) by ring, Real.sin_neg]
  ring

/-- Claim C9: the haversine distance is symmetric in its two coordinate
pairs, and the distance from a point to itself is 0. -/
theorem claim_C9_haversine_symm_zero :
    ∀ lat1 lon1 lat2 lon2 : ℝ,
      haversine lat1 lon1 lat2 lon2 = haversine lat2 lon2 lat1 lon1 ∧
      haversine lat1 lon1 lat1 lon1 = 0 := by
  intro lat1 lon1 lat2 lon2
  constructor
  · show 2 * Real.arcsin (Real.sqrt
        (Real.sin ((radiansOf lat2 - radiansOf lat1) / 2) ^ 2 +
          Real.cos (radiansOf lat1) * Real.cos (radiansOf lat2) *
            Real.sin ((radiansOf lon2 - radiansOf lon1) / 2) ^ 2)) * 6371 =
      2 * Real.arcsin (Real.sqrt
        (Real.sin ((radiansOf lat1 - radiansOf lat2) / 2) ^ 2 +
          Real.cos (radiansOf lat2) * Real.cos (radiansOf lat1) *
            Real.sin ((radiansOf lon1 - radiansOf lon2) / 2) ^ 2)) * 6371
    rw [sin_half_sub_sq_symm (radiansOf lat2) (radiansOf lat1),
      sin_half_sub_sq_symm (radiansOf lon2) (radiansOf lon1),
      mul_comm (Real.cos (radiansOf lat1)) (Real.cos (radiansOf lat2))]
  · show 2 * Real.arcsin (Real.sqrt
        (Real.sin ((radiansOf lat1 - radiansOf lat1) / 2) ^ 2 +
          Real.cos (radiansOf lat1) * Real.cos (radiansOf lat1) *
            Real.sin ((radiansOf lon1 - radiansOf lon1) / 2) ^ 2)) * 6371 = 0
    simp [sub_self]

/-- The distance-key comparison is transitive. -/
theorem distLe_trans :
    ∀ a b c : Station, distLe a b = true → distLe b c = true →
      distLe a c = true := by
  intro a b c hab hbc
  simp only [distLe, decide_eq_true_eq] at hab hbc ⊢
  exact le_trans hab hbc

/-- The distance-key comparison is total. -/
theorem distLe_total : ∀ a b : Station, (distLe a b || distLe b a) = true := by
  intro a b
  simp only [distLe, Bool.or_eq_true, decide_eq_true_eq]
  exact le_total _ _

/-- Claim C6: for every candidate list returned by the upstream query, the
output of `find_nearby_stations` is sorted ascending by computed distance
and has length at most `max_nearby`; it is the `max_nearby`-prefix of the
stable sort of the annotated candidates, in which candidates at equal
distance keep their relative input order. -/
theorem claim_C6_find_nearby_stations_sorted :
    ∀ (lat lon : ℝ) (maxNearby : ℕ) (stations : List StationMeta),
      List.Sorted (fun a b : Station => a.distKm ≤ b.distKm)
        (find_nearby_stations lat lon maxNearby stations) ∧
      (find_nearby_stations lat lon maxNearby stations).length ≤ maxNearby ∧
      find_nearby_stations lat lon maxNearby stations =
        ((annotateStations lat lon stations).mergeSort distLe).take maxNearby ∧
      (∀ a b : Station,
        [a, b].Sublist (annotateStations lat lon stations) →
        a.distKm = b.distKm →
        [a, b].Sublist ((annotateStations lat lon stations).mergeSort distLe)) := by
  intro lat lon maxNearby stations
  have hsorted : ((annotateStations lat lon stations).mergeSort distLe).Pairwise
      (fun a b : Station => a.distKm ≤ b.distKm) := by
    refine List.Pairwise.imp ?_
      (List.sorted_mergeSort distLe_trans distLe_total
        (annotateStations lat lon stations))
    intro a b h
    simpa [distLe] using h
  refine ⟨?_, ?_, rfl, ?_⟩
  · exact hsorted.sublist (List.take_sublist _ _)
  · exact List.length_take_le _ _
  · intro a b hsub heq
    refine List.pair_sublist_mergeSort distLe_trans distLe_total ?_ hsub
    simp [distLe, heq.le]

/-- Month blocks are disjoint: the days of an earlier month all precede
the offset of a later month. -/
theorem monthOffset_add_le :
    ∀ (L : Bool), ∀ m1 < 13, ∀ m2 < 13, 1 ≤ m1 → m1 < m2 →
      monthOffset L m1 + daysInMonth L m1 ≤ monthOffset L m2 := by
  decide

/-- A valid date has day-of-year at least 1. -/
theorem dayOfYear_pos {d : Date} (hd : d.valid = true) : 1 ≤ d.dayOfYear := by
  simp only [Date.valid, Bool.and_eq_true, decide_eq_true_eq] at hd
  unfold Date.dayOfYear
  omega

/-- Day-of-year is monotone along the date order within one year. -/
theorem dayOfYear_le_of_ble {d e : Date} (hd : d.valid = true)
    (he : e.valid = true) (hy : d.year = e.year)
    (hle : Date.ble d e = true) : d.dayOfYear ≤ e.dayOfYear := by
  simp only [Date.valid, Bool.and_eq_true, decide_eq_true_eq] at hd he
  obtain ⟨⟨⟨hm1, hm2⟩, hd1⟩, hd2⟩ := hd
  obtain ⟨⟨⟨hem1, hem2⟩, he1⟩, he2⟩ := he
  unfold Date.ble at hle
  rw [if_pos hy] at hle
  unfold Date.dayOfYear
  rw [hy] at hd2 ⊢
  by_cases hm : d.month = e.month
  · rw [if_pos hm] at hle
    simp only [decide_eq_true_eq] at hle
    rw [hm]
    omega
  · rw [if_neg hm] at hle
    simp only [decide_eq_true_eq] at hle
    have hkey := monthOffset_add_le (isLeap e.year) d.month (by omega) e.month
      (by omega) (by omega) hle
    omega

/-- Within one year the ordinal difference from Jan 1 recovers the
day-of-year: `(e - date(year,1,1)).days + 1 == e.timetuple().tm_yday`. -/
theorem toRataDie_sub_jan1 (e : Date) (year : Int) (hy : e.year = year) :
    e.toRataDie - (Date.mk year 1 1).toRataDie + 1 = (e.dayOfYear : Int) := by
  have h1 : (Date.mk year 1 1).dayOfYear = 1 := by
    simp [Date.dayOfYear, monthOffset]
  unfold Date.toRataDie
  rw [h1, hy]
  push_cast
  ring

/-- The effective end date of `has_full_prcp_coverage` lies in the
requested year (for a non-future year). -/
theorem effectiveEnd_year (today : Date) (year : Int) (endDate : Option Date)
    (hty : year ≤ today.year) : (effectiveEnd today year endDate).year = year := by
  unfold effectiveEnd
  cases endDate with
  | none =>
    by_cases h : year < today.year
    · simp [h]
    · simp [h]; omega
  | some e =>
    by_cases he : e.year ≠ year
    · by_cases h : year < today.year
      · simp [he, h]
      · simp [he, h]; omega
    · push_neg at he
      simp [he]

/-- The effective end date of `has_full_prcp_coverage` is a valid
calendar day. -/
theorem effectiveEnd_valid (today : Date) (year : Int) (endDate : Option Date)
    (hT : today.valid = true) (hE : endDate.all Date.valid = true) :
    (effectiveEnd today year endDate).valid = true := by
  have hdec : ∀ y : Int, (Date.mk y 12 31).valid = true := by
    intro y; simp [Date.valid, daysInMonth]
  unfold effectiveEnd
  cases endDate with
  | none => by_cases h : year < today.year <;> simp [h, hdec, hT]
  | some e =>
    simp only [Option.all_some] at hE
    by_cases he : e.year ≠ year
    · by_cases h : year < today.year <;> simp [he, h, hdec, hT]
    · simp [he, hE]

/-- Claim C2: `has_full_prcp_coverage` returns `False` when the fetch
yields zero records, and otherwise returns `True` iff every calendar day
in `[Jan 1, effectiveEnd]` has at least one record — duplicate same-day
entries are deduplicated (the `seen` set), and `effectiveEnd` is the given
end date when it falls within the year, else Dec 31 for past years or
today for the current year; the expected count
`(effectiveEnd - Jan 1).days + 1` is compared with `≥` against the
distinct-day count. -/
theorem claim_C2_has_full_prcp_coverage :
    ∀ (today : Date) (year : Int) (endDate : Option Date)
      (results : List DataRow),
      today.valid = true →
      year ≤ today.year →
      endDate.all Date.valid = true →
      results.all (fun r => r.date.valid) = true →
      ((results = [] →
          has_full_prcp_coverage today year endDate results = false) ∧
       (results ≠ [] →
         (has_full_prcp_coverage today year endDate results = true ↔
           ∀ k : ℕ, 1 ≤ k →
             k ≤ (effectiveEnd today year endDate).dayOfYear →
             ∃ r ∈ results, r.date.year = year ∧
               Date.ble r.date (effectiveEnd today year endDate) = true ∧
               r.date.dayOfYear = k))) := by
  intro t y ed rs hT hY hE hR
  have hRv : ∀ r ∈ rs, r.date.valid = true := by
    intro r hr
    have := List.all_eq_true.mp hR r hr
    simpa using this
  have hEy : (effectiveEnd t y ed).year = y := effectiveEnd_year t y ed hY
  have hEv : (effectiveEnd t y ed).valid = true := effectiveEnd_valid t y ed hT hE
  have hExp : (effectiveEnd t y ed).toRataDie - (Date.mk y 1 1).toRataDie + 1 =
      ((effectiveEnd t y ed).dayOfYear : Int) :=
    toRataDie_sub_jan1 _ y hEy
  constructor
  · intro h; subst h; rfl
  · intro hne
    have hempty : rs.isEmpty = false := by
      cases rs with
      | nil => exact absurd rfl hne
      | cons a l => rfl
    have hsub : seenDoys y (effectiveEnd t y ed) rs ⊆
        Finset.Icc 1 (effectiveEnd t y ed).dayOfYear := by
      intro k hk
      simp only [seenDoys, List.mem_toFinset, List.mem_map, List.mem_filter,
        Bool.and_eq_true, beq_iff_eq] at hk
      obtain ⟨r, ⟨hrmem, hry, hrle⟩, hrdoy⟩ := hk
      have hv := hRv r hrmem
      rw [Finset.mem_Icc]
      constructor
      · rw [← hrdoy]; exact dayOfYear_pos hv
      · rw [← hrdoy]
        exact dayOfYear_le_of_ble hv hEv (hry.trans hEy.symm) hrle
    have hcard : (Finset.Icc 1 (effectiveEnd t y ed).dayOfYear).card =
        (effectiveEnd t y ed).dayOfYear := by
      simp [Nat.card_Icc]
    have hmain : has_full_prcp_coverage t y ed rs = true ↔
        (effectiveEnd t y ed).dayOfYear ≤
          (seenDoys y (effectiveEnd t y ed) rs).card := by
      unfold has_full_prcp_coverage
      rw [hempty]
      simp only [Bool.false_eq_true, if_false, decide_eq_true_eq, hExp]
      exact_mod_cast Iff.rfl
    rw [hmain]
    constructor
    · intro hge k hk1 hk2
      have heq : seenDoys y (effectiveEnd t y ed) rs =
          Finset.Icc 1 (effectiveEnd t y ed).dayOfYear :=
        Finset.eq_of_subset_of_card_le hsub (by rw [hcard]; exact hge)
      have hkm : k ∈ seenDoys y (effectiveEnd t y ed) rs := by
        rw [heq, Finset.mem_Icc]; exact ⟨hk1, hk2⟩
      simp only [seenDoys, List.mem_toFinset, List.mem_map, List.mem_filter,
        Bool.and_eq_true, beq_iff_eq] at hkm
      obtain ⟨r, ⟨hrmem, hry, hrle⟩, hrdoy⟩ := hkm
      exact ⟨r, hrmem, hry, hrle, hrdoy⟩
    · intro hall
      have hsup : Finset.Icc 1 (effectiveEnd t y ed).dayOfYear ⊆
          seenDoys y (effectiveEnd t y ed) rs := by
        intro k hk
        rw [Finset.mem_Icc] at hk
        obtain ⟨r, hrmem, hry, hrle, hrdoy⟩ := hall k hk.1 hk.2
        simp only [seenDoys, List.mem_toFinset, List.mem_map, List.mem_filter,
          Bool.and_eq_true, beq_iff_eq]
        exact ⟨r, ⟨hrmem, hry, hrle⟩, hrdoy⟩
      calc (effectiveEnd t y ed).dayOfYear
          = (Finset.Icc 1 (effectiveEnd t y ed).dayOfYear).card := hcard.symm
        _ ≤ (seenDoys y (effectiveEnd t y ed) rs).card :=
            Finset.card_le_card hsup

/-- Witness for C2: year 2023 seen from mid-2024, end date Jan 2 2023,
and records on Jan 1 and Jan 2 of 2023. -/
theorem claim_C2_witness :
    (Date.mk 2024 6 1).valid = true ∧
    (2023 : Int) ≤ (Date.mk 2024 6 1).year ∧
    (some (Date.mk 2023 1 2)).all Date.valid = true ∧
    ([DataRow.mk ⟨2023, 1, 1⟩, DataRow.mk ⟨2023, 1, 2⟩].all
      (fun r => r.date.valid)) = true ∧
    (([DataRow.mk ⟨2023, 1, 1⟩, DataRow.mk ⟨2023, 1, 2⟩] = ([] : List DataRow) →
        has_full_prcp_coverage ⟨2024, 6, 1⟩ 2023 (some ⟨2023, 1, 2⟩)
          [⟨⟨2023, 1, 1⟩⟩, ⟨⟨2023, 1, 2⟩⟩] = false) ∧
     ([DataRow.mk ⟨2023, 1, 1⟩, DataRow.mk ⟨2023, 1, 2⟩] ≠ ([] : List DataRow) →
       (has_full_prcp_coverage ⟨2024, 6, 1⟩ 2023 (some ⟨2023, 1, 2⟩)
          [⟨⟨2023, 1, 1⟩⟩, ⟨⟨2023, 1, 2⟩⟩] = true ↔
         ∀ k : ℕ, 1 ≤ k →
           k ≤ (effectiveEnd ⟨2024, 6, 1⟩ 2023 (some ⟨2023, 1, 2⟩)).dayOfYear →
           ∃ r ∈ [DataRow.mk ⟨2023, 1, 1⟩, DataRow.mk ⟨2023, 1, 2⟩],
             r.date.year = 2023 ∧
             Date.ble r.date
               (effectiveEnd ⟨2024, 6, 1⟩ 2023 (some ⟨2023, 1, 2⟩)) = true ∧
             r.date.dayOfYear = k))) :=
  ⟨by decide, by decide, by decide, by decide,
    claim_C2_has_full_prcp_coverage ⟨2024, 6, 1⟩ 2023 (some ⟨2023, 1, 2⟩)
      [⟨⟨2023, 1, 1⟩⟩, ⟨⟨2023, 1, 2⟩⟩]
      (by decide) (by decide) (by decide) (by decide)⟩
